import Mathlib

/-!
Verification of the routing-and-activation core of `unified-document-analysis`.

The definitions below are a shallow embedding of
`src/unified_document_analysis/router.py`,
`src/unified_document_analysis/exceptions.py` and
`src/unified_document_analysis/orchestrator.py`.
File paths are strings; Python's `pathlib.Path(...).suffix` is modelled by
`pySuffix ∘ pathName`; `importlib.import_module` is modelled by an explicit
environment `String → Option H` mapping module names to handles; exceptions
become explicit result constructors.
-/

namespace UnifiedDocInputModel

/-- Split a character list at every `'/'` (the groups between separators,
as `str.split('/')` produces them). -/
def splitOnSlash : List Char → List (List Char)
  | [] => [[]]
  | c :: cs =>
    if c = '/' then [] :: splitOnSlash cs
    else
      match splitOnSlash cs with
      | [] => [[c]]
      | g :: gs => (c :: g) :: gs

/-- Components of a POSIX-style path, as `pathlib` parses them: empty
components and `.` components are dropped, `..` is kept. -/
def pathComponents (p : String) : List String :=
  ((splitOnSlash p.data).map String.mk).filter (fun s => s ≠ "" && s ≠ ".")

/-- `pathlib.Path(p).name`: the final path component (empty for `""`, `"."`,
`"/"`). -/
def pathName (p : String) : String :=
  (pathComponents p).getLastD ""

/-- Index of the last `'.'` in a character list, as `str.rfind('.')` when the
result is non-negative. -/
def rfindDotAux : List Char → Option Nat
  | [] => none
  | c :: cs =>
    match rfindDotAux cs with
    | some i => some (i + 1)
    | none => if c = '.' then some 0 else none

/-- `pathlib`'s suffix of a file name: `name[i:]` where `i = name.rfind('.')`,
provided `0 < i < len(name) - 1`; otherwise `""`. -/
def pySuffix (name : String) : String :=
  let cs := name.data
  match rfindDotAux cs with
  | some i => if 0 < i ∧ i + 1 < cs.length then String.mk (cs.drop i) else ""
  | none => ""

/-- ASCII lower-casing of one character, as `str.lower()` acts on ASCII. -/
def lowerChar (c : Char) : Char :=
  if 'A' ≤ c ∧ c ≤ 'Z' then Char.ofNat (c.toNat + 32) else c

/-- `str.lower()` restricted to ASCII (all registered suffixes are ASCII). -/
def lowerStr (s : String) : String :=
  String.mk (s.data.map lowerChar)

/-- `Path(file_path).suffix.lower()` as computed in `router.py`. -/
def extensionOf (filePath : String) : String :=
  lowerStr (pySuffix (pathName filePath))

/-- `XML_EXTENSIONS` (router.py line 11). -/
def XML_EXTENSIONS : List String := [".xml"]

/-- `DOCLING_EXTENSIONS` (router.py lines 13-16). -/
def DOCLING_EXTENSIONS : List String :=
  [".pdf", ".docx", ".pptx", ".xlsx",
   ".png", ".jpg", ".jpeg", ".tiff", ".bmp"]

/-- `DATA_EXTENSIONS` (router.py lines 18-21). -/
def DATA_EXTENSIONS : List String :=
  [".csv", ".parquet", ".db", ".sqlite", ".sqlite3",
   ".feather", ".hdf5", ".h5"]

/-- `DOCUMENT_EXTENSIONS` (router.py lines 24-45); a Python set, so the
duplicate `.jsx`/`.tsx` literals collapse. -/
def DOCUMENT_EXTENSIONS : List String :=
  [".py", ".js", ".ts", ".jsx", ".tsx", ".java", ".c", ".cpp", ".h", ".hpp",
   ".cs", ".go", ".rs", ".rb", ".php", ".swift", ".kt", ".scala", ".r",
   ".m", ".mm", ".sh", ".bash", ".zsh", ".fish", ".ps1",
   ".html", ".htm", ".css", ".scss", ".sass", ".less",
   ".vue", ".svelte",
   ".json", ".yaml", ".yml", ".toml", ".ini", ".cfg", ".conf",
   ".md", ".markdown", ".rst", ".txt", ".tex", ".adoc",
   ".sql", ".graphql", ".proto", ".thrift",
   ".dockerfile", ".containerfile",
   ".makefile", ".cmake",
   ".gitignore", ".dockerignore"]

/-- `AMBIGUOUS_EXTENSIONS` (router.py lines 48-52): suffix ↦ ordered
framework alternatives, first entry the default. -/
def AMBIGUOUS_EXTENSIONS : List (String × List String) :=
  [(".json", ["document", "data"]),
   (".yaml", ["document", "xml"]),
   (".yml",  ["document", "xml"])]

/-- The keys of `AMBIGUOUS_EXTENSIONS` (Python `extension in AMBIGUOUS_EXTENSIONS`). -/
def ambiguousKeys : List String := AMBIGUOUS_EXTENSIONS.map Prod.fst

/-- `AMBIGUOUS_EXTENSIONS[extension]` as a partial lookup. -/
def lookupAmbiguous (extension : String) : Option (List String) :=
  (AMBIGUOUS_EXTENSIONS.find? (fun p => p.1 = extension)).map Prod.snd

/-- `valid_hints` (router.py line 75). -/
def validHints : List String := ["xml", "docling", "document", "data"]

/-- Outcome of `FileRouter.detect_framework`: the returned framework name, or
one of the two exceptions it raises (`ValueError` for an invalid hint,
`UnsupportedFileTypeError` with its structured `file_path`/`extension`
fields). -/
inductive DetectResult where
  | ok (framework : String)
  | invalidHint (hint : String)
  | unsupported (filePath extension : String)
deriving DecidableEq, Repr

/-- Suffix-based branch of `FileRouter.detect_framework`
(router.py lines 83-110). -/
def detectBySuffix (filePath : String) : DetectResult :=
  let extension := extensionOf filePath
  if extension = "" then .ok "document"
  else if extension ∈ XML_EXTENSIONS then .ok "xml"
  else if extension ∈ DOCLING_EXTENSIONS then .ok "docling"
  else if extension ∈ DATA_EXTENSIONS then .ok "data"
  else if extension ∈ DOCUMENT_EXTENSIONS then .ok "document"
  else
    match lookupAmbiguous extension with
    | some alts => .ok (alts.headD "")
    | none => .unsupported filePath extension

/-- `FileRouter.detect_framework` (router.py lines 58-110).  Python's
`if hint:` is truthiness: `None` and `""` both fall through to suffix
detection. -/
def detect_framework (filePath : String) (hint : Option String) : DetectResult :=
  match hint with
  | some h =>
    if h ≠ "" then
      if h ∈ validHints then .ok h else .invalidHint h
    else detectBySuffix filePath
  | none => detectBySuffix filePath

/-- `FileRouter.get_confidence` (router.py lines 112-148), with the float
literals embedded as rationals. -/
def get_confidence (filePath framework : String) : ℚ :=
  let extension := extensionOf filePath
  if framework = "xml" ∧ extension ∈ XML_EXTENSIONS then 1
  else if framework = "docling" ∧ extension ∈ DOCLING_EXTENSIONS then 1
  else if framework = "data" ∧ extension ∈ DATA_EXTENSIONS then 1
  else if framework = "document" ∧ extension ∈ DOCUMENT_EXTENSIONS then
    (if extension ∈ ambiguousKeys then 7/10 else 1)
  else if extension = "" then 1/2
  else 3/10

/-- `FileRouter.is_ambiguous` (router.py lines 192-208). -/
def is_ambiguous (filePath : String) : Bool × List String :=
  match lookupAmbiguous (extensionOf filePath) with
  | some alts => (true, alts)
  | none => (false, [])

/-- `module_mapping` (router.py lines 161-166). -/
def MODULE_MAPPING : List (String × String) :=
  [("xml", "xml_analysis_framework"),
   ("docling", "docling_analysis_framework"),
   ("document", "document_analysis_framework"),
   ("data", "data_analysis_framework")]

/-- `FileRouter.get_framework_module_path` (router.py lines 150-167):
dict `.get` with the framework name itself as default. -/
def get_framework_module_path (framework : String) : String :=
  (((MODULE_MAPPING.find? (fun p => p.1 = framework)).map Prod.snd).getD framework)

/-- Per-instance state of `UnifiedAnalyzer`: the `_loaded_frameworks` dict,
as an association list from framework name to a loaded-module handle of some
type `H` (opaque to the core). -/
structure AnalyzerState (H : Type) where
  loaded_frameworks : List (String × H)
deriving Repr, DecidableEq

/-- Dict lookup `framework_name in self._loaded_frameworks` /
`self._loaded_frameworks[framework_name]`. -/
def AnalyzerState.lookup {H : Type} (st : AnalyzerState H) (framework : String) :
    Option H :=
  (st.loaded_frameworks.find? (fun p => p.1 = framework)).map Prod.snd

/-- Outcome of `UnifiedAnalyzer._load_framework`: the module handle, or the
`FrameworkNotInstalledError` with its structured `framework_name` /
`file_path` fields. -/
inductive LoadResult (H : Type) where
  | ok (handle : H)
  | frameworkNotInstalled (framework filePath : String)
deriving DecidableEq, Repr

/-- `UnifiedAnalyzer._load_framework` (orchestrator.py lines 236-263).
`env` models `importlib.import_module`: `env name = some m` when the module
named `name` is importable with handle `m`, `none` when importing raises
`ImportError`.  The returned `Nat` counts how many import probes the call
performed (0 on a cache hit, 1 otherwise). -/
def load_framework {H : Type} (env : String → Option H)
    (st : AnalyzerState H) (framework filePath : String) :
    LoadResult H × AnalyzerState H × Nat :=
  match st.lookup framework with
  | some m => (.ok m, st, 0)
  | none =>
    match env (get_framework_module_path framework) with
    | some m => (.ok m, ⟨st.loaded_frameworks ++ [(framework, m)]⟩, 1)
    | none => (.frameworkNotInstalled framework filePath, st, 1)

/-- Outcome of `UnifiedAnalyzer.analyze`: the back-end result, or one of the
exceptions that can escape it.  `invalidHint` and `unsupported` propagate
from `detect_framework` unwrapped; `frameworkNotInstalled` propagates from
`_load_framework` unwrapped; `analysisError` is the `AnalysisError` wrapper,
carrying `file_path`, `framework_name` and the original back-end error as
its structured cause (exceptions.py lines 60-72). -/
inductive AnalyzeResult (R E : Type) where
  | ok (result : R)
  | invalidHint (hint : String)
  | unsupported (filePath extension : String)
  | frameworkNotInstalled (framework filePath : String)
  | analysisError (filePath framework : String) (cause : E)
deriving DecidableEq, Repr

/-- `UnifiedAnalyzer.analyze` (orchestrator.py lines 29-73).  `run h fp`
models `framework.analyze(file_path, **kwargs)` on handle `h`: `Except.error e`
when the back-end raises `e`, `Except.ok r` when it returns `r`.  The
`get_confidence` call on line 63 is computed and discarded, as in the code. -/
def analyze {H R E : Type} (env : String → Option H)
    (run : H → String → Except E R)
    (st : AnalyzerState H) (filePath : String) (hint : Option String) :
    AnalyzeResult R E × AnalyzerState H :=
  match detect_framework filePath hint with
  | .invalidHint h => (.invalidHint h, st)
  | .unsupported fp ext => (.unsupported fp ext, st)
  | .ok fw =>
    let _confidence := get_confidence filePath fw
    match load_framework env st fw filePath with
    | (.frameworkNotInstalled f p, st', _) => (.frameworkNotInstalled f p, st')
    | (.ok h, st', _) =>
      match run h filePath with
      | .ok r => (.ok r, st')
      | .error e => (.analysisError filePath fw e, st')

/-- The default (first-listed) alternative of an ambiguous rule, when the
suffix has one. -/
def ambiguousDefault (extension : String) : Option String :=
  (lookupAmbiguous extension).map (fun alts => alts.headD "")

/-- The confidence table as §4.1 of the spec words it, after the one
correction the code forces: an empty suffix scores 1/2 for every requested
identity, not only for the fallback identity. -/
def spec_confidence_amended (filePath framework : String) : ℚ :=
  let ext := extensionOf filePath
  if (framework = "xml" ∧ ext ∈ XML_EXTENSIONS) ∨
     (framework = "docling" ∧ ext ∈ DOCLING_EXTENSIONS) ∨
     (framework = "data" ∧ ext ∈ DATA_EXTENSIONS) ∨
     (framework = "document" ∧ ext ∈ DOCUMENT_EXTENSIONS ∧ ext ∉ ambiguousKeys) then 1
  else if ext ∈ ambiguousKeys ∧ ambiguousDefault ext = some framework then 7/10
  else if ext = "" then 1/2
  else 3/10

end UnifiedDocInputModel

namespace UnifiedDocInputModel

/-! ### Helper lemmas -/

lemma mem_ambiguousKeys_iff (e : String) :
    e ∈ ambiguousKeys ↔ e = ".json" ∨ e = ".yaml" ∨ e = ".yml" := by
  simp [ambiguousKeys, AMBIGUOUS_EXTENSIONS]

lemma lookupAmbiguous_eq_none (e : String) (h : e ∉ ambiguousKeys) :
    lookupAmbiguous e = none := by
  rw [mem_ambiguousKeys_iff] at h
  push_neg at h
  obtain ⟨h1, h2, h3⟩ := h
  simp [lookupAmbiguous, AMBIGUOUS_EXTENSIONS, List.find?, Ne.symm h1, Ne.symm h2,
    Ne.symm h3]

lemma amb_default_eq (e : String) (h : e ∈ ambiguousKeys) :
    ambiguousDefault e = some "document" := by
  rw [mem_ambiguousKeys_iff] at h
  rcases h with rfl | rfl | rfl <;> rfl

lemma amb_mem_document (e : String) (h : e ∈ ambiguousKeys) :
    e ∈ DOCUMENT_EXTENSIONS := by
  rw [mem_ambiguousKeys_iff] at h
  rcases h with rfl | rfl | rfl <;> decide

lemma amb_not_elsewhere (e : String) (h : e ∈ ambiguousKeys) :
    e ∉ XML_EXTENSIONS ∧ e ∉ DOCLING_EXTENSIONS ∧ e ∉ DATA_EXTENSIONS := by
  rw [mem_ambiguousKeys_iff] at h
  rcases h with rfl | rfl | rfl <;> refine ⟨by decide, by decide, by decide⟩

lemma detect_of_empty_ext (filePath : String) (h : extensionOf filePath = "") :
    detect_framework filePath none = .ok "document" := by
  simp [detect_framework, detectBySuffix, h]

lemma conf_document_of_empty_ext (filePath : String)
    (h : extensionOf filePath = "") :
    get_confidence filePath "document" = 1/2 := by
  simp [get_confidence, h, XML_EXTENSIONS, DOCLING_EXTENSIONS, DATA_EXTENSIONS,
    DOCUMENT_EXTENSIONS]

lemma rfindDotAux_eq_none (l : List Char) (h : ('.' : Char) ∉ l) :
    rfindDotAux l = none := by
  induction l with
  | nil => rfl
  | cons c cs ih =>
    rw [List.mem_cons] at h
    push_neg at h
    simp [rfindDotAux, ih h.2, Ne.symm h.1]

lemma pySuffix_of_leading_dot_name (name : String)
    (hhead : name.data.head? = some '.')
    (htail : ('.' : Char) ∉ name.data.tail) :
    pySuffix name = "" := by
  cases hd : name.data with
  | nil => rw [hd] at hhead; simp at hhead
  | cons c cs =>
    rw [hd] at hhead htail
    simp at hhead htail
    subst hhead
    unfold pySuffix
    rw [hd]
    simp [rfindDotAux, rfindDotAux_eq_none cs htail]

/-! ### Claim C1 -/

/-- Claim C1, counterexample: the empty string is a supplied hint outside the
closed identity set, yet `detect_framework` does not fail with `InvalidHint`;
it falls back to suffix classification and routes `"x.pdf"` to `"docling"`.
Python's `if hint:` treats `""` as no hint at all. -/
theorem C1_counterexample :
    detect_framework "x.pdf" (some "") = .ok "docling" ∧
    detect_framework "x.pdf" (some "") ≠ .invalidHint "" := by
  exact ⟨by decide, by decide⟩

/-- Claim C1, amended: for every file identifier and every NON-EMPTY supplied
hint outside the closed identity set, `detect_framework` fails with
`InvalidHint` and never falls back to suffix-based classification; an
empty-string hint is treated as an absent hint. -/
theorem C1_invalid_hint (filePath h : String) (hne : h ≠ "")
    (hnv : h ∉ validHints) :
    detect_framework filePath (some h) = .invalidHint h := by
  simp [detect_framework, hne, hnv]

/-- Witness for `C1_invalid_hint` at `filePath = "report.pdf"`, `h = "pandas"`. -/
theorem C1_invalid_hint_witness :
    ("pandas" : String) ≠ "" ∧ ("pandas" : String) ∉ validHints ∧
    detect_framework "report.pdf" (some "pandas") = .invalidHint "pandas" :=
  ⟨by decide, by decide, C1_invalid_hint "report.pdf" "pandas" (by decide) (by decide)⟩

/-! ### Claim C2 -/

/-- Claim C2, counterexample: the suffix `".json"` appears both in the
unambiguous document rule set and as a key of the ambiguous-rule table, so
the two rule sets are not disjoint. -/
theorem C2_counterexample :
    (".json" : String) ∈ DOCUMENT_EXTENSIONS ∧ (".json" : String) ∈ ambiguousKeys := by
  exact ⟨by decide, by decide⟩

/-- Claim C2, amended: the four per-framework extension sets are pairwise
disjoint, but the ambiguous-rule table is NOT disjoint from them: every one
of its suffixes (`.json`, `.yaml`, `.yml`) also appears in the document
extension set. -/
theorem C2_rule_tables :
    XML_EXTENSIONS ∩ DOCLING_EXTENSIONS = [] ∧
    XML_EXTENSIONS ∩ DATA_EXTENSIONS = [] ∧
    XML_EXTENSIONS ∩ DOCUMENT_EXTENSIONS = [] ∧
    DOCLING_EXTENSIONS ∩ DATA_EXTENSIONS = [] ∧
    DOCLING_EXTENSIONS ∩ DOCUMENT_EXTENSIONS = [] ∧
    DATA_EXTENSIONS ∩ DOCUMENT_EXTENSIONS = [] ∧
    ambiguousKeys ∩ DOCUMENT_EXTENSIONS = ambiguousKeys := by
  decide

/-! ### Claim C5 -/

/-- Claim C5: a non-empty normalized suffix that appears in no rule table
makes `detect_framework` (without hint) fail with `UnsupportedType`, and the
error carries exactly that suffix and that file identifier as structured
fields. -/
theorem C5_unsupported (filePath : String)
    (h0 : extensionOf filePath ≠ "")
    (h1 : extensionOf filePath ∉ XML_EXTENSIONS)
    (h2 : extensionOf filePath ∉ DOCLING_EXTENSIONS)
    (h3 : extensionOf filePath ∉ DATA_EXTENSIONS)
    (h4 : extensionOf filePath ∉ DOCUMENT_EXTENSIONS)
    (h5 : extensionOf filePath ∉ ambiguousKeys) :
    detect_framework filePath none = .unsupported filePath (extensionOf filePath) := by
  simp [detect_framework, detectBySuffix, h0, h1, h2, h3, h4,
    lookupAmbiguous_eq_none _ h5]

/-- Witness for `C5_unsupported` at `filePath = "x.qqq"` (suffix `.qqq`). -/
theorem C5_unsupported_witness :
    extensionOf "x.qqq" = ".qqq" ∧
    detect_framework "x.qqq" none = .unsupported "x.qqq" (extensionOf "x.qqq") :=
  ⟨by decide, C5_unsupported "x.qqq" (by decide) (by decide) (by decide) (by decide)
    (by decide) (by decide)⟩

/-! ### Claim C6 -/

/-- Claim C6: for every file identifier whose normalized suffix is empty and
no hint, `detect_framework` returns the fallback identity `"document"` and
`get_confidence` for that identity is 0.5. -/
theorem C6_empty_suffix (filePath : String) (h : extensionOf filePath = "") :
    detect_framework filePath none = .ok "document" ∧
    get_confidence filePath "document" = 1/2 :=
  ⟨detect_of_empty_ext filePath h, conf_document_of_empty_ext filePath h⟩

/-- Witness for `C6_empty_suffix` at `filePath = "Makefile"`. -/
theorem C6_empty_suffix_witness :
    extensionOf "Makefile" = "" ∧
    detect_framework "Makefile" none = .ok "document" ∧
    get_confidence "Makefile" "document" = 1/2 :=
  ⟨by decide, C6_empty_suffix "Makefile" (by decide)⟩

/-! ### Claim C10 -/

/-- Claim C10: a file identifier whose final path component starts with a dot
and contains no other dot has an empty normalized suffix, so hint-less
detection returns the fallback identity `"document"` with confidence 0.5,
even though the literal strings `".gitignore"` and `".dockerignore"` are
registered in the document extension set. -/
theorem C10_dotfile_fallback (filePath : String)
    (hhead : (pathName filePath).data.head? = some '.')
    (htail : ('.' : Char) ∉ (pathName filePath).data.tail) :
    extensionOf filePath = "" ∧
    detect_framework filePath none = .ok "document" ∧
    get_confidence filePath "document" = 1/2 ∧
    (".gitignore" : String) ∈ DOCUMENT_EXTENSIONS ∧
    (".dockerignore" : String) ∈ DOCUMENT_EXTENSIONS := by
  have he : extensionOf filePath = "" := by
    unfold extensionOf
    rw [pySuffix_of_leading_dot_name _ hhead htail]
    rfl
  exact ⟨he, detect_of_empty_ext filePath he, conf_document_of_empty_ext filePath he,
    by decide, by decide⟩

/-- Witness for `C10_dotfile_fallback` at `filePath = ".gitignore"`. -/
theorem C10_dotfile_fallback_witness :
    extensionOf ".gitignore" = "" ∧
    detect_framework ".gitignore" none = .ok "document" ∧
    get_confidence ".gitignore" "document" = 1/2 ∧
    (".gitignore" : String) ∈ DOCUMENT_EXTENSIONS ∧
    (".dockerignore" : String) ∈ DOCUMENT_EXTENSIONS :=
  C10_dotfile_fallback ".gitignore" (by decide) (by decide)


/-! ### Claim C3 -/

lemma conf_cases (e fw : String) :
    (if fw = "xml" ∧ e ∈ XML_EXTENSIONS then (1 : ℚ)
     else if fw = "docling" ∧ e ∈ DOCLING_EXTENSIONS then 1
     else if fw = "data" ∧ e ∈ DATA_EXTENSIONS then 1
     else if fw = "document" ∧ e ∈ DOCUMENT_EXTENSIONS then
       (if e ∈ ambiguousKeys then 7/10 else 1)
     else if e = "" then 1/2
     else 3/10) =
    (if (fw = "xml" ∧ e ∈ XML_EXTENSIONS) ∨
        (fw = "docling" ∧ e ∈ DOCLING_EXTENSIONS) ∨
        (fw = "data" ∧ e ∈ DATA_EXTENSIONS) ∨
        (fw = "document" ∧ e ∈ DOCUMENT_EXTENSIONS ∧ e ∉ ambiguousKeys) then (1 : ℚ)
     else if e ∈ ambiguousKeys ∧ ambiguousDefault e = some fw then 7/10
     else if e = "" then 1/2
     else 3/10) := by
  by_cases h1 : fw = "xml" ∧ e ∈ XML_EXTENSIONS
  · simp [h1]
  by_cases h2 : fw = "docling" ∧ e ∈ DOCLING_EXTENSIONS
  · simp [h1, h2]
  by_cases h3 : fw = "data" ∧ e ∈ DATA_EXTENSIONS
  · simp [h1, h2, h3]
  by_cases h4 : fw = "document" ∧ e ∈ DOCUMENT_EXTENSIONS
  · by_cases h5 : e ∈ ambiguousKeys
    · have hdef : ambiguousDefault e = some "document" := amb_default_eq e h5
      simp [h1, h2, h3, h4, h5, hdef, h4.1]
    · simp [h1, h2, h3, h4, h5]
  · have hsec : ¬(e ∈ ambiguousKeys ∧ ambiguousDefault e = some fw) := by
      rintro ⟨hm, hd⟩
      rw [amb_default_eq e hm] at hd
      have hfw : fw = "document" := (Option.some.inj hd).symm
      exact h4 ⟨hfw, amb_mem_document e hm⟩
    have h4x : ¬(fw = "document" ∧ e ∈ DOCUMENT_EXTENSIONS ∧ e ∉ ambiguousKeys) :=
      fun hc => h4 ⟨hc.1, hc.2.1⟩
    simp [h1, h2, h3, h4, h4x, hsec]

/-- Claim C3, counterexample: the claim says a mismatched identity always
yields 0.3, including for an empty suffix; but
`get_confidence("Makefile", "xml")` is 0.5, not 0.3 — the empty-suffix branch
fires before the mismatched-identity fallthrough. -/
theorem C3_counterexample :
    get_confidence "Makefile" "xml" = 1/2 ∧ get_confidence "Makefile" "xml" ≠ 3/10 := by
  have h : extensionOf "Makefile" = "" := by decide
  constructor
  · simp [get_confidence, h, XML_EXTENSIONS]
  · simp [get_confidence, h, XML_EXTENSIONS]
    norm_num

/-- Claim C3, amended: `get_confidence` is exactly the fixed table — 1.0 for
an exact unambiguous match, 0.7 for an ambiguous suffix whose default is the
requested identity, 0.5 whenever the suffix is empty (for ANY requested
identity, not only the fallback `"document"`), and 0.3 for any other
combination (mismatched identity with a non-empty suffix). -/
theorem C3_confidence_table (filePath framework : String) :
    get_confidence filePath framework = spec_confidence_amended filePath framework :=
  conf_cases (extensionOf filePath) framework

/-! ### Claim C4 -/

/-- Claim C4: for every suffix in the ambiguous-rule table and any file
identifier with that suffix and no hint, `detect_framework` returns the
first-listed alternative, `is_ambiguous` returns `(true, full list)`, and
`get_confidence` of the returned default is 0.7. -/
theorem C4_ambiguous_default (filePath ext : String) (alts : List String)
    (hmem : (ext, alts) ∈ AMBIGUOUS_EXTENSIONS)
    (hext : extensionOf filePath = ext) :
    detect_framework filePath none = .ok (alts.headD "") ∧
    is_ambiguous filePath = (true, alts) ∧
    get_confidence filePath (alts.headD "") = 7/10 := by
  simp only [AMBIGUOUS_EXTENSIONS, List.mem_cons, List.not_mem_nil, or_false,
    Prod.mk.injEq] at hmem
  rcases hmem with ⟨rfl, rfl⟩ | ⟨rfl, rfl⟩ | ⟨rfl, rfl⟩ <;>
    refine ⟨?_, ?_, ?_⟩ <;>
      simp [detect_framework, detectBySuffix, is_ambiguous, get_confidence,
        lookupAmbiguous, AMBIGUOUS_EXTENSIONS, ambiguousKeys, hext,
        XML_EXTENSIONS, DOCLING_EXTENSIONS, DATA_EXTENSIONS, DOCUMENT_EXTENSIONS,
        List.find?]

/-- Witness for `C4_ambiguous_default` at `filePath = "data.json"`. -/
theorem C4_ambiguous_default_witness :
    detect_framework "data.json" none = .ok "document" ∧
    is_ambiguous "data.json" = (true, ["document", "data"]) ∧
    get_confidence "data.json" "document" = 7/10 := by
  have h := C4_ambiguous_default "data.json" ".json" ["document", "data"]
    (by decide) (by decide)
  simpa using h


/-! ### Claims C7 and C8 -/

lemma lookup_eq_none_iff {H : Type} (st : AnalyzerState H) (fw : String) :
    st.lookup fw = none ↔ st.loaded_frameworks.find? (fun p => p.1 = fw) = none := by
  simp [AnalyzerState.lookup]

lemma lookup_append_single {H : Type} (l : List (String × H)) (fw : String) (m : H)
    (h : l.find? (fun p => p.1 = fw) = none) :
    AnalyzerState.lookup ⟨l ++ [(fw, m)]⟩ fw = some m := by
  unfold AnalyzerState.lookup
  rw [List.find?_append, h]
  simp [List.find?]

/-- Claim C7: when the identity's activation target is available and the
identity is not yet cached, the first `_load_framework` call performs exactly
one import probe, returns the handle and caches it; the second call on the
resulting state performs zero probes, returns the identical handle and leaves
the state unchanged. -/
theorem C7_activation_cached {H : Type} (env : String → Option H)
    (st : AnalyzerState H) (fw fp : String) (m : H)
    (havail : env (get_framework_module_path fw) = some m)
    (hmiss : st.lookup fw = none) :
    load_framework env st fw fp = (.ok m, ⟨st.loaded_frameworks ++ [(fw, m)]⟩, 1) ∧
    load_framework env ⟨st.loaded_frameworks ++ [(fw, m)]⟩ fw fp =
      (.ok m, ⟨st.loaded_frameworks ++ [(fw, m)]⟩, 0) := by
  constructor
  · simp [load_framework, hmiss, havail]
  · have hcache : AnalyzerState.lookup ⟨st.loaded_frameworks ++ [(fw, m)]⟩ fw = some m :=
      lookup_append_single _ _ _ ((lookup_eq_none_iff st fw).mp hmiss)
    simp [load_framework, hcache]

/-- An import environment in which only the xml back-end module resolves,
with handle `42`. -/
def envXmlOnly : String → Option Nat := fun s =>
  if s = "xml_analysis_framework" then some 42 else none

/-- Witness for `C7_activation_cached`: loading `"xml"` twice from an empty
cache probes once, then serves the cached handle with no probe. -/
theorem C7_activation_cached_witness :
    load_framework envXmlOnly (⟨[]⟩ : AnalyzerState Nat) "xml" "doc.xml" =
      (.ok 42, ⟨[("xml", 42)]⟩, 1) ∧
    load_framework envXmlOnly (⟨[("xml", 42)]⟩ : AnalyzerState Nat) "xml" "doc.xml" =
      (.ok 42, ⟨[("xml", 42)]⟩, 0) :=
  C7_activation_cached envXmlOnly ⟨[]⟩ "xml" "doc.xml" 42 (by decide) (by decide)

/-- Claim C8: when the activation target is not resolvable, `_load_framework`
raises `FrameworkNotInstalledError` (carrying the identity and file
identifier) and leaves the cache unchanged; a later call on the same state
under an environment where the target resolves succeeds and caches the
handle — failures are never cached. -/
theorem C8_failure_not_cached {H : Type} (env env2 : String → Option H)
    (st : AnalyzerState H) (fw fp : String) (m : H)
    (hmiss : st.lookup fw = none)
    (hfail : env (get_framework_module_path fw) = none)
    (havail : env2 (get_framework_module_path fw) = some m) :
    load_framework env st fw fp = (.frameworkNotInstalled fw fp, st, 1) ∧
    load_framework env2 st fw fp = (.ok m, ⟨st.loaded_frameworks ++ [(fw, m)]⟩, 1) := by
  constructor
  · simp [load_framework, hmiss, hfail]
  · simp [load_framework, hmiss, havail]

/-- An import environment in which no module resolves. -/
def envNoneAvailable : String → Option Nat := fun _ => none

/-- Witness for `C8_failure_not_cached`: a failed `"xml"` activation raises
and leaves the empty cache empty, and retrying under an environment where the
module resolves succeeds. -/
theorem C8_failure_not_cached_witness :
    load_framework envNoneAvailable (⟨[]⟩ : AnalyzerState Nat) "xml" "doc.xml" =
      (.frameworkNotInstalled "xml" "doc.xml", ⟨[]⟩, 1) ∧
    load_framework envXmlOnly (⟨[]⟩ : AnalyzerState Nat) "xml" "doc.xml" =
      (.ok 42, ⟨[("xml", 42)]⟩, 1) :=
  C8_failure_not_cached envNoneAvailable envXmlOnly ⟨[]⟩ "xml" "doc.xml" 42
    (by decide) (by decide) (by decide)

/-! ### Claim C9 -/

/-- Claim C9: in `analyze`, every error raised by the back-end's analyze
operation is re-raised as `AnalysisError` carrying the file identifier, the
resolved identity, and the original error as structured cause, while routing
and activation errors (invalid hint, unsupported type, framework not
installed) arising before the back-end call propagate to the caller
unwrapped. -/
theorem C9_error_propagation {H R E : Type} (env : String → Option H)
    (run : H → String → Except E R) (st : AnalyzerState H)
    (fp : String) (hint : Option String) :
    (∀ fw h e, detect_framework fp hint = .ok fw →
       (load_framework env st fw fp).1 = .ok h →
       run h fp = .error e →
       (analyze env run st fp hint).1 = .analysisError fp fw e) ∧
    (∀ s, detect_framework fp hint = .invalidHint s →
       analyze env run st fp hint = (.invalidHint s, st)) ∧
    (∀ p x, detect_framework fp hint = .unsupported p x →
       analyze env run st fp hint = (.unsupported p x, st)) ∧
    (∀ fw f p, detect_framework fp hint = .ok fw →
       (load_framework env st fw fp).1 = .frameworkNotInstalled f p →
       (analyze env run st fp hint).1 = .frameworkNotInstalled f p) := by
  refine ⟨?_, ?_, ?_, ?_⟩
  · intro fw h e hdet hload hrun
    rcases hl : load_framework env st fw fp with ⟨r, st2, n⟩
    rw [hl] at hload
    simp at hload
    subst hload
    simp [analyze, hdet, hl, hrun]
  · intro s hdet
    simp [analyze, hdet]
  · intro p x hdet
    simp [analyze, hdet]
  · intro fw f p hdet hload
    rcases hl : load_framework env st fw fp with ⟨r, st2, n⟩
    rw [hl] at hload
    simp at hload
    subst hload
    simp [analyze, hdet, hl]

/-- A back-end whose analyze operation always raises the error `"boom"`. -/
def runFail : Nat → String → Except String Nat := fun _ _ => Except.error "boom"

/-- Witness for `C9_error_propagation`, exercising all four conjuncts: the
back-end error is wrapped with file identifier, identity and cause; an
invalid hint, an unsupported suffix, and a missing back-end each propagate
unwrapped. -/
theorem C9_error_propagation_witness :
    (analyze envXmlOnly runFail (⟨[]⟩ : AnalyzerState Nat) "doc.xml" none).1 =
      .analysisError "doc.xml" "xml" "boom" ∧
    analyze envXmlOnly runFail (⟨[]⟩ : AnalyzerState Nat) "doc.xml" (some "bad") =
      (.invalidHint "bad", ⟨[]⟩) ∧
    analyze envXmlOnly runFail (⟨[]⟩ : AnalyzerState Nat) "x.qqq" none =
      (.unsupported "x.qqq" ".qqq", ⟨[]⟩) ∧
    (analyze envXmlOnly runFail (⟨[]⟩ : AnalyzerState Nat) "a.csv" none).1 =
      .frameworkNotInstalled "data" "a.csv" := by
  refine ⟨?_, ?_, ?_, ?_⟩
  · exact (C9_error_propagation envXmlOnly runFail ⟨[]⟩ "doc.xml" none).1 "xml" 42 "boom"
      (by decide) (by decide) (by rfl)
  · exact (C9_error_propagation envXmlOnly runFail ⟨[]⟩ "doc.xml" (some "bad")).2.1
      "bad" (by decide)
  · exact (C9_error_propagation envXmlOnly runFail ⟨[]⟩ "x.qqq" none).2.2.1
      "x.qqq" ".qqq" (by decide)
  · exact (C9_error_propagation envXmlOnly runFail ⟨[]⟩ "a.csv" none).2.2.2
      "data" "data" "a.csv" (by decide) (by decide)

end UnifiedDocInputModel
